import Mathlib

/-!
Verification of the OPM deck-processing excerpt: EclIO utilities,
well-injection control handling (WCONINJE / WCONINJH / WELTARG / WTMULT /
UDA updates), the Active-UDA tracker, and the UDQ value-set semantics.

C++ sources are embedded shallowly: machine integers become Int with the
C++ truncated division semantics where it matters, doubles become Rat
(Real only where a transcendental function is involved), exceptions become
Except String, and OpmLog warnings become an explicit warning list.
-/

namespace OpmVerify

/- ===================== EclIO utilities (EclUtil.cpp) ===================== -/

/-- Embeds Opm::EclIO::is_number: std::all_of over the characters of the
string, testing isdigit on each. -/
def is_number (numstr : String) : Bool :=
  numstr.data.all (fun c => c.isDigit)

/-- Embeds Opm::EclIO::combineSummaryNumbers:
returns n1 + (1 << 15)*(n2 + 10) on C++ int; overflow-free inputs are
modelled directly on Int. -/
def combineSummaryNumbers (n1 n2 : Int) : Int :=
  n1 + 2 ^ 15 * (n2 + 10)

/-- Embeds Opm::EclIO::splitSummaryNumber:
n % (1 << 15) and n / (1 << 15) - 10, where C++ integer division and
remainder truncate toward zero (Int.tdiv / Int.tmod). -/
def splitSummaryNumber (n : Int) : Int × Int :=
  (Int.tmod n (2 ^ 15), Int.tdiv n (2 ^ 15) - 10)

/-- A character is a decimal digit in the sense of the C isdigit test. -/
def isDecimalDigit (c : Char) : Prop :=
  ('0' : Char) ≤ c ∧ c ≤ ('9' : Char)

instance (c : Char) : Decidable (isDecimalDigit c) := by
  unfold isDecimalDigit; infer_instance

/- ===================== Theorems: C8 and C10 ===================== -/

/-- Claim C8: for 0 <= n1 < 2^15 and n2 >= -10 such that the combined number fits
in a signed 32-bit int, splitSummaryNumber inverts combineSummaryNumbers. -/
theorem splitSummaryNumber_combineSummaryNumbers (n1 n2 : Int)
    (h1 : 0 ≤ n1) (h2 : n1 < 2 ^ 15) (h3 : -10 ≤ n2)
    (h4 : combineSummaryNumbers n1 n2 < 2 ^ 31) :
    splitSummaryNumber (combineSummaryNumbers n1 n2) = (n1, n2) := by
  have hnn : (0:Int) ≤ combineSummaryNumbers n1 n2 := by
    unfold combineSummaryNumbers
    have h10 : (0:Int) ≤ n2 + 10 := by omega
    nlinarith
  unfold splitSummaryNumber
  rw [Int.tmod_eq_emod hnn (by norm_num), Int.tdiv_eq_ediv hnn (by norm_num)]
  unfold combineSummaryNumbers at *
  refine Prod.ext ?_ ?_ <;> simp only [] <;> omega

/-- Claim C8 witness: concrete instance n1 = 5, n2 = -3. -/
theorem splitSummaryNumber_combineSummaryNumbers_witness :
    splitSummaryNumber (combineSummaryNumbers 5 (-3)) = (5, -3) :=
  splitSummaryNumber_combineSummaryNumbers 5 (-3)
    (by decide) (by decide) (by decide) (by decide)

/-- Claim C10: is_number s is true exactly when every character of s is a decimal
digit; in particular it is true on the empty string, and false on any string
containing a sign, decimal point, or exponent character. -/
theorem is_number_characterization :
    (∀ s : String, is_number s = true ↔ ∀ c ∈ s.data, isDecimalDigit c) ∧
    (is_number "" = true) ∧
    (∀ s : String, ∀ c ∈ s.data,
      (c = '+' ∨ c = '-' ∨ c = '.' ∨ c = 'e' ∨ c = 'E') →
      is_number s = false) := by
  have hdigit : ∀ c : Char, c.isDigit = true ↔ isDecimalDigit c := by
    intro c
    simp only [Char.isDigit, ge_iff_le, Bool.and_eq_true, decide_eq_true_eq,
      isDecimalDigit, Char.le_def]
    constructor
    · rintro ⟨ha, hb⟩; exact ⟨ha, hb⟩
    · rintro ⟨ha, hb⟩; exact ⟨ha, hb⟩
  have hmain : ∀ s : String, is_number s = true ↔ ∀ c ∈ s.data, isDecimalDigit c := by
    intro s
    unfold is_number
    rw [List.all_eq_true]
    constructor
    · intro h c hc; exact (hdigit c).1 (h c hc)
    · intro h c hc; exact (hdigit c).2 (h c hc)
  refine ⟨hmain, by decide, ?_⟩
  intro s c hc hbad
  cases hval : is_number s with
  | false => rfl
  | true =>
    exfalso
    have := (hmain s).1 hval c hc
    rcases hbad with h | h | h | h | h <;> subst h <;> revert this <;> decide

/-- Claim C10 witness: the string "+12" contains a sign character, so is_number
rejects it; and the characterization holds there. -/
theorem is_number_characterization_witness :
    is_number "+12" = false :=
  is_number_characterization.2.2 "+12" '+' (by decide) (Or.inl rfl)

/- ============ Schedule/Well data model (WellInjectionProperties.cpp) ============ -/

/-- Injector fluid type (ScheduleTypes.hpp). -/
inductive InjectorType
  | WATER
  | GAS
  | OIL
  | MULTI
  deriving DecidableEq, Repr

/-- Injection control modes (Well.hpp, InjectorCMode). -/
inductive InjectorCMode
  | RATE
  | RESV
  | BHP
  | THP
  | GRUP
  | CMODE_UNDEFINED
  deriving DecidableEq, Repr

/-- WELTARG control-mode keywords (Well.hpp, WELTARGCMode). -/
inductive WELTARGCMode
  | ORAT
  | WRAT
  | GRAT
  | LRAT
  | RESV
  | BHP
  | THP
  | VFP
  | LIFT
  | GUID
  deriving DecidableEq, Repr

/-- UDA control slots referenced by WellInjectionProperties (UDQEnums.hpp);
the producer control WCONPROD_ORAT stands for the controls outside the
injection set, which update_uda rejects. -/
inductive UDAControl
  | WCONINJE_RATE
  | WCONINJE_RESV
  | WCONINJE_BHP
  | WCONINJE_THP
  | WELTARG_ORAT
  | WELTARG_WRAT
  | WELTARG_GRAT
  | WELTARG_RESV
  | WELTARG_BHP
  | WELTARG_THP
  | WCONPROD_ORAT
  deriving DecidableEq, Repr

/-- A UDAValue holds either a literal number or the name of a UDQ quantity;
a default-constructed target that was never assigned is undefined
(UDAValue.hpp, is_defined). Doubles are embedded as Rat. -/
inductive UDAValue
  | undefinedValue
  | num (v : ℚ)
  | uda (key : String)
  deriving DecidableEq, Repr

/-- UDAValue::is_defined. -/
def UDAValue.is_defined : UDAValue → Bool
  | .undefinedValue => false
  | _ => true

/-- UDAValue::update_value: take the value of the argument (the dimension,
not modelled, is kept). -/
def UDAValue.update_value (_t other : UDAValue) : UDAValue := other

/-- UDAValue::update with a plain double. -/
def UDAValue.update (_t : UDAValue) (v : ℚ) : UDAValue := .num v

/-- UDAValue::operator*= with a double factor: scales a numeric value;
a UDA reference is left as the reference. -/
def UDAValue.scaleBy : UDAValue → ℚ → UDAValue
  | .num v, factor => .num (v * factor)
  | x, _ => x

/-- UDAValue::get<double>: fails when the value is not a plain number. -/
def UDAValue.get_double : UDAValue → Except String ℚ
  | .num v => .ok v
  | _ => .error "UDAValue does not hold a double"

/-- The string used for the WCONINJH warning target: std::to_string of the
double when the value holds a double (an undefined value holds the default
double 0), otherwise the UDA string. -/
def UDAValue.targetString : UDAValue → String
  | .num v => toString v
  | .uda s => s
  | .undefinedValue => toString (0 : ℚ)

/-- Modelled from the spec: the set of active injection controls of a well
(the int bitmask injectionControls with Well.hpp's inline
addInjectionControl, which is not part of the excerpt, understood as a
finite set of control modes). -/
def addInjectionControl (ctrls : List InjectorCMode) (c : InjectorCMode) :
    List InjectorCMode :=
  if ctrls.contains c then ctrls else c :: ctrls

/-- Modelled from the spec: removal from the active injection-control set
(Well.hpp's inline dropInjectionControl is not part of the excerpt). -/
def dropInjectionControl (ctrls : List InjectorCMode) (c : InjectorCMode) :
    List InjectorCMode :=
  ctrls.filter (fun x => x ≠ c)

/-- Modelled from the spec: membership in the active injection-control set
(Well.hpp's inline hasInjectionControl is not part of the excerpt). -/
def hasInjectionControl (ctrls : List InjectorCMode) (c : InjectorCMode) : Bool :=
  ctrls.contains c

/-- The state of Well::WellInjectionProperties (Well.hpp). The
gas-injection composition is irrelevant to the handlers modelled here and
is omitted. -/
structure WellInjectionProperties where
  name : String
  surfaceInjectionRate : UDAValue
  reservoirInjectionRate : UDAValue
  BHPTarget : UDAValue
  THPTarget : UDAValue
  BHPH : ℚ
  THPH : ℚ
  bhp_hist_limit : ℚ
  thp_hist_limit : ℚ
  VFPTableNumber : Int
  predictionMode : Bool
  injectionControls : List InjectorCMode
  injectorType : InjectorType
  controlMode : InjectorCMode
  rsRvInj : ℚ
  deriving DecidableEq, Repr

/-- Modelled from the spec: InjectorTypeFromString (ScheduleTypes.cpp is
not part of the excerpt); recognizes the ECLIPSE injector type strings and
fails otherwise. -/
def InjectorTypeFromString (s : String) : Except String InjectorType :=
  if s = "WATER" ∨ s = "WAT" then .ok .WATER
  else if s = "GAS" then .ok .GAS
  else if s = "OIL" then .ok .OIL
  else if s = "MULTI" then .ok .MULTI
  else .error ("Unknown injector type: " ++ s)

/-- Modelled from the spec: WellInjectorCModeFromString (ScheduleTypes.cpp
is not part of the excerpt); an invalid control-mode string fails at
deck-processing time. -/
def WellInjectorCModeFromString (s : String) : Except String InjectorCMode :=
  if s = "RATE" then .ok .RATE
  else if s = "RESV" then .ok .RESV
  else if s = "BHP" then .ok .BHP
  else if s = "THP" then .ok .THP
  else if s = "GRUP" then .ok .GRUP
  else .error ("Unknown control mode: " ++ s)

/-- WellInjectorCMode2String. -/
def WellInjectorCMode2String : InjectorCMode → String
  | .RATE => "RATE"
  | .RESV => "RESV"
  | .BHP => "BHP"
  | .THP => "THP"
  | .GRUP => "GRUP"
  | .CMODE_UNDEFINED => "UNDEFINED"

/-- WellWELTARGCMode2String. -/
def WellWELTARGCMode2String : WELTARGCMode → String
  | .ORAT => "ORAT"
  | .WRAT => "WRAT"
  | .GRAT => "GRAT"
  | .LRAT => "LRAT"
  | .RESV => "RESV"
  | .BHP => "BHP"
  | .THP => "THP"
  | .VFP => "VFP"
  | .LIFT => "LIFT"
  | .GUID => "GUID"

/-- static_cast<int> of a double: truncation toward zero, on Rat. -/
def ratTruncToInt (q : ℚ) : Int := q.num.tdiv q.den

/-- Embeds Well::WellInjectionProperties::handleWELTARG
(WellInjectionProperties.cpp): thrown std::invalid_argument becomes
Except.error carrying the message. -/
def handleWELTARG (st : WellInjectionProperties) (cmode : WELTARGCMode)
    (new_arg : UDAValue) (SiFactorP : ℚ) : Except String WellInjectionProperties :=
  if cmode = .BHP then
    if st.predictionMode then
      .ok { st with BHPTarget := st.BHPTarget.update_value new_arg }
    else
      match new_arg.get_double with
      | .ok v => .ok { st with bhp_hist_limit := v * SiFactorP }
      | .error e => .error e
  else if cmode = .ORAT then
    if st.injectorType = .OIL then
      .ok { st with surfaceInjectionRate := st.surfaceInjectionRate.update_value new_arg }
    else
      .error "Well type must be OIL to set the oil rate"
  else if cmode = .WRAT then
    if st.injectorType = .WATER then
      .ok { st with surfaceInjectionRate := st.surfaceInjectionRate.update_value new_arg }
    else
      .error "Well type must be WATER to set the water rate"
  else if cmode = .GRAT then
    if st.injectorType = .GAS then
      .ok { st with surfaceInjectionRate := st.surfaceInjectionRate.update_value new_arg }
    else
      .error "Well type must be GAS to set the gas rate"
  else if cmode = .THP then
    .ok { st with THPTarget := st.THPTarget.update_value new_arg }
  else if cmode = .VFP then
    match new_arg.get_double with
    | .ok v => .ok { st with VFPTableNumber := ratTruncToInt v }
    | .error e => .error e
  else if cmode = .RESV then
    .ok { st with reservoirInjectionRate := st.reservoirInjectionRate.update_value new_arg }
  else if cmode = .GUID then
    .ok st
  else
    .error "Invalid keyword (MODE) supplied"

/-- The update_target lambda inside handleWTMULT: scaling an undefined
target is an error. -/
def wtmultUpdateTarget (cmode : WELTARGCMode) (factor : ℚ) (target : UDAValue) :
    Except String UDAValue :=
  if target.is_defined then .ok (target.scaleBy factor)
  else .error ("Cannot apply WTMULT to undefined " ++ WellWELTARGCMode2String cmode ++ " target")

/-- Embeds Well::WellInjectionProperties::handleWTMULT. In the default
branch the C++ source constructs std::invalid_argument without throwing it,
so that branch returns normally with the state unchanged. -/
def handleWTMULT (st : WellInjectionProperties) (cmode : WELTARGCMode)
    (factor : ℚ) : Except String WellInjectionProperties :=
  match cmode with
  | .BHP =>
    (wtmultUpdateTarget cmode factor st.BHPTarget).map
      (fun t => { st with BHPTarget := t })
  | .ORAT =>
    if st.injectorType = .OIL then
      (wtmultUpdateTarget cmode factor st.surfaceInjectionRate).map
        (fun t => { st with surfaceInjectionRate := t })
    else
      .error "Well type must be OIL to scale the oil rate"
  | .WRAT =>
    if st.injectorType = .WATER then
      (wtmultUpdateTarget cmode factor st.surfaceInjectionRate).map
        (fun t => { st with surfaceInjectionRate := t })
    else
      .error "Well type must be WATER to scale the oil rate"
  | .GRAT =>
    if st.injectorType = .GAS then
      (wtmultUpdateTarget cmode factor st.surfaceInjectionRate).map
        (fun t => { st with surfaceInjectionRate := t })
    else
      .error "Well type must be GAS to scale the oil rate"
  | .THP =>
    (wtmultUpdateTarget cmode factor st.THPTarget).map
      (fun t => { st with THPTarget := t })
  | .RESV =>
    (wtmultUpdateTarget cmode factor st.reservoirInjectionRate).map
      (fun t => { st with reservoirInjectionRate := t })
  | _ => .ok st

/- ===================== Active-UDA tracker ===================== -/

/-- Modelled from the spec: the UDQ configuration is an opaque collaborator
of the Active-UDA tracker contract; the spec gives update no behaviour that
depends on it, so it is carried as the list of defined UDQ names. -/
structure UDQConfig where
  keys : List String
  deriving DecidableEq, Repr

/-- UDQ::controlName (UDQEnums.cpp is not part of the excerpt; modelled as
the evident name of each control). -/
def controlName : UDAControl → String
  | .WCONINJE_RATE => "WCONINJE_RATE"
  | .WCONINJE_RESV => "WCONINJE_RESV"
  | .WCONINJE_BHP => "WCONINJE_BHP"
  | .WCONINJE_THP => "WCONINJE_THP"
  | .WELTARG_ORAT => "WELTARG_ORAT"
  | .WELTARG_WRAT => "WELTARG_WRAT"
  | .WELTARG_GRAT => "WELTARG_GRAT"
  | .WELTARG_RESV => "WELTARG_RESV"
  | .WELTARG_BHP => "WELTARG_BHP"
  | .WELTARG_THP => "WELTARG_THP"
  | .WCONPROD_ORAT => "WCONPROD_ORAT"

/-- Modelled from the spec: the Active-UDA tracker records, per
(entity name, control), which UDQ quantity currently drives that control. -/
structure UDQActive where
  records : List ((String × UDAControl) × String)
  deriving DecidableEq, Repr

/-- Lookup of the UDQ key tracked for one (entity name, control) slot. -/
def lookupRec : List ((String × UDAControl) × String) → String × UDAControl → Option String
  | [], _ => none
  | (k, v) :: rest, key => if k = key then some v else lookupRec rest key

/-- Record that a slot is driven by the given UDQ key (replacing any
previous registration of the slot, keeping the order of other slots). -/
def setRec : List ((String × UDAControl) × String) → String × UDAControl → String →
    List ((String × UDAControl) × String)
  | [], key, v => [(key, v)]
  | (k, w) :: rest, key, v =>
    if k = key then (key, v) :: rest else (k, w) :: setRec rest key v

/-- Remove the registration of a slot. -/
def removeRec (l : List ((String × UDAControl) × String)) (key : String × UDAControl) :
    List ((String × UDAControl) × String) :=
  l.filter (fun e => e.1 ≠ key)

/-- The tracked state a value asks for: a UDA string reference must be
tracked under its key, a literal or undefined value must not be tracked. -/
def desiredTracking : UDAValue → Option String
  | .uda k => some k
  | _ => none

/-- Modelled from the spec: UDQActive::update(config, value, entity_name,
control) records that the named control is currently driven by a UDQ/UDA
reference rather than a literal number, returning 1 if this registration
changed tracked state and 0 otherwise (idempotent). UDQActive.cpp is not
part of the excerpt. -/
def UDQActive.update (a : UDQActive) (_config : UDQConfig) (value : UDAValue)
    (entity_name : String) (control : UDAControl) : Nat × UDQActive :=
  match desiredTracking value with
  | some k =>
    if lookupRec a.records (entity_name, control) = some k then (0, a)
    else (1, ⟨setRec a.records (entity_name, control) k⟩)
  | none =>
    match lookupRec a.records (entity_name, control) with
    | none => (0, a)
    | some _ => (1, ⟨removeRec a.records (entity_name, control)⟩)

/-- Embeds Well::WellInjectionProperties::updateUDQActive(udq_config,
active): accumulates the update counts of the four WCONINJE controls and
reports whether any registration changed. -/
def updateUDQActive (st : WellInjectionProperties) (udq_config : UDQConfig)
    (active : UDQActive) : Bool × UDQActive :=
  let r1 := active.update udq_config st.surfaceInjectionRate st.name .WCONINJE_RATE
  let r2 := r1.2.update udq_config st.reservoirInjectionRate st.name .WCONINJE_RESV
  let r3 := r2.2.update udq_config st.BHPTarget st.name .WCONINJE_BHP
  let r4 := r3.2.update udq_config st.THPTarget st.name .WCONINJE_THP
  (decide (0 < r1.1 + r2.1 + r3.1 + r4.1), r4.2)

/-- Embeds the WELTARGCMode overload of
Well::WellInjectionProperties::updateUDQActive; the && short-circuit means
the tracker is not consulted when the fluid type does not match. -/
def updateUDQActiveWeltarg (st : WellInjectionProperties) (udq_config : UDQConfig)
    (cmode : WELTARGCMode) (active : UDQActive) : Bool × UDQActive :=
  match cmode with
  | .ORAT =>
    if st.injectorType = .OIL then
      let r := active.update udq_config st.surfaceInjectionRate st.name .WELTARG_ORAT
      (decide (0 < r.1), r.2)
    else (false, active)
  | .WRAT =>
    if st.injectorType = .WATER then
      let r := active.update udq_config st.surfaceInjectionRate st.name .WELTARG_WRAT
      (decide (0 < r.1), r.2)
    else (false, active)
  | .GRAT =>
    if st.injectorType = .GAS then
      let r := active.update udq_config st.surfaceInjectionRate st.name .WELTARG_GRAT
      (decide (0 < r.1), r.2)
    else (false, active)
  | .RESV =>
    let r := active.update udq_config st.reservoirInjectionRate st.name .WELTARG_RESV
    (decide (0 < r.1), r.2)
  | .BHP =>
    let r := active.update udq_config st.BHPTarget st.name .WELTARG_BHP
    (decide (0 < r.1), r.2)
  | .THP =>
    let r := active.update udq_config st.THPTarget st.name .WELTARG_THP
    (decide (0 < r.1), r.2)
  | _ => (false, active)

/-- Embeds Well::WellInjectionProperties::update_uda: on a fluid-type
mismatch for the WELTARG rate controls the state is left unchanged and the
tracker is not consulted (update_active = false); unsupported controls
throw std::logic_error. -/
def update_uda (st : WellInjectionProperties) (udq_config : UDQConfig)
    (udq_active : UDQActive) (control : UDAControl) (value : UDAValue) :
    Except String (WellInjectionProperties × UDQActive) :=
  let step : Except String (WellInjectionProperties × Bool) :=
    match control with
    | .WCONINJE_RATE => .ok ({ st with surfaceInjectionRate := value }, true)
    | .WELTARG_ORAT =>
      if st.injectorType = .OIL then .ok ({ st with surfaceInjectionRate := value }, true)
      else .ok (st, false)
    | .WELTARG_WRAT =>
      if st.injectorType = .WATER then .ok ({ st with surfaceInjectionRate := value }, true)
      else .ok (st, false)
    | .WELTARG_GRAT =>
      if st.injectorType = .GAS then .ok ({ st with surfaceInjectionRate := value }, true)
      else .ok (st, false)
    | .WCONINJE_RESV => .ok ({ st with reservoirInjectionRate := value }, true)
    | .WELTARG_RESV => .ok ({ st with reservoirInjectionRate := value }, true)
    | .WCONINJE_BHP => .ok ({ st with BHPTarget := value }, true)
    | .WELTARG_BHP => .ok ({ st with BHPTarget := value }, true)
    | .WCONINJE_THP => .ok ({ st with THPTarget := value }, true)
    | .WELTARG_THP => .ok ({ st with THPTarget := value }, true)
    | other => .error ("Unsupported well injection UDA control " ++ controlName other)
  match step with
  | .error e => .error e
  | .ok (st2, update_active) =>
    if update_active then
      .ok (st2, (udq_active.update udq_config value st.name control).2)
    else
      .ok (st2, udq_active)

/- ============ WCONINJE / WCONINJH record handling ============ -/

/-- The deck items of one WCONINJE record consumed by handleWCONINJE.
defaultApplied(0) flags are explicit; getSIDouble and get<double> of the
VAPOIL_C item are carried as the SI and the deck value. -/
structure WconinjeRecord where
  typeString : String
  rateDefaulted : Bool
  rateValue : UDAValue
  resvDefaulted : Bool
  resvValue : UDAValue
  vfpTableNumber : Int
  thpDefaulted : Bool
  thpValue : UDAValue
  bhpDefaulted : Bool
  bhpValue : UDAValue
  cmodeString : String
  vapoilSI : ℚ
  vapoilDeck : ℚ
  deriving DecidableEq, Repr

/-- Embeds Well::WellInjectionProperties::handleWCONINJE: the thrown
OpmInputError / std::invalid_argument become Except.error. -/
def handleWCONINJE (st0 : WellInjectionProperties) (record : WconinjeRecord)
    (bhp_def : ℚ) (availableForGroupControl : Bool) (well_name : String) :
    Except String WellInjectionProperties :=
  match InjectorTypeFromString record.typeString with
  | Except.error e => Except.error e
  | Except.ok ty =>
    let st1 : WellInjectionProperties := { st0 with injectorType := ty, predictionMode := true }
    let st2 : WellInjectionProperties :=
      if record.rateDefaulted then
        { st1 with injectionControls := dropInjectionControl st1.injectionControls .RATE }
      else
        { st1 with surfaceInjectionRate := record.rateValue,
                   injectionControls := addInjectionControl st1.injectionControls .RATE }
    let st3 : WellInjectionProperties :=
      if record.resvDefaulted then
        { st2 with injectionControls := dropInjectionControl st2.injectionControls .RESV }
      else
        { st2 with reservoirInjectionRate := record.resvValue,
                   injectionControls := addInjectionControl st2.injectionControls .RESV }
    let st4 : WellInjectionProperties := { st3 with VFPTableNumber := record.vfpTableNumber }
    let thpStep : Except String WellInjectionProperties :=
      if record.thpDefaulted then
        Except.ok { st4 with injectionControls := dropInjectionControl st4.injectionControls .THP }
      else
        let s2 : WellInjectionProperties :=
          { st4 with THPTarget := record.thpValue,
                     injectionControls := addInjectionControl st4.injectionControls .THP }
        if s2.VFPTableNumber = 0 then
          Except.error ("Well " ++ well_name ++
            " must have a VFP table to handle non-zero THP constraint")
        else
          Except.ok s2
    match thpStep with
    | Except.error e => Except.error e
    | Except.ok st5 =>
      let st6 : WellInjectionProperties :=
        if record.bhpDefaulted then { st5 with BHPTarget := st5.BHPTarget.update bhp_def }
        else { st5 with BHPTarget := record.bhpValue }
      let st7 : WellInjectionProperties :=
        { st6 with injectionControls := addInjectionControl st6.injectionControls .BHP }
      let st8 : WellInjectionProperties :=
        if availableForGroupControl then
          { st7 with injectionControls := addInjectionControl st7.injectionControls .GRUP }
        else
          { st7 with injectionControls := dropInjectionControl st7.injectionControls .GRUP }
      match WellInjectorCModeFromString record.cmodeString with
      | Except.error e => Except.error e
      | Except.ok controlModeArg =>
        if hasInjectionControl st8.injectionControls controlModeArg then
          let st9 : WellInjectionProperties :=
            { st8 with controlMode := controlModeArg, rsRvInj := record.vapoilSI }
          let st10 : WellInjectionProperties :=
            if st9.injectorType = .OIL ∧ 0 < st9.rsRvInj then
              { st9 with rsRvInj := record.vapoilDeck / (record.vapoilSI / record.vapoilDeck) }
            else st9
          Except.ok st10
        else
          Except.error ("Tried to set invalid control: " ++ record.cmodeString ++
            " for well: " ++ well_name)

/-- The deck items of one WCONINJH record consumed by handleWCONINJH. -/
structure WconinjhRecord where
  typeDefaulted : Bool
  typeString : String
  rateDefaulted : Bool
  rateValue : ℚ
  bhpHasValue : Bool
  bhpSI : ℚ
  thpHasValue : Bool
  thpSI : ℚ
  cmodeString : String
  vapoilSI : ℚ
  vapoilDeck : ℚ
  deriving DecidableEq, Repr

/-- The OpmLog::warning message issued by handleWCONINJH when the selected
control is neither RATE nor BHP. -/
def wconinjhWarning (filename : String) (lineno : Nat) (well_name : String)
    (inputControlMode : InjectorCMode) (target : String) : String :=
  "Problem with keyword WCONINJH In " ++ filename ++ " line " ++
    toString lineno ++ " Only RATE and BHP controls supported for well " ++
    well_name ++ ". Selected control " ++
    WellInjectorCMode2String inputControlMode ++
    " reset to RATE, with target = " ++ target ++ "."

/-- Embeds Well::WellInjectionProperties::handleWCONINJH. OpmLog::warning
messages are returned alongside the new state; an unsupported control mode
is reset to RATE with a warning, it is not an error. -/
def handleWCONINJH (st0 : WellInjectionProperties) (record : WconinjhRecord)
    (vfp_table_nr : Int) (bhp_def : ℚ) (is_producer : Bool)
    (well_name : String) (filename : String) (lineno : Nat) :
    Except String (WellInjectionProperties × List String) :=
  if record.typeDefaulted then
    Except.error "Injection type can not be defaulted for keyword WCONINJH"
  else
    match InjectorTypeFromString record.typeString with
    | Except.error e => Except.error e
    | Except.ok ty =>
      let st1 : WellInjectionProperties := { st0 with injectorType := ty }
      let st2 : WellInjectionProperties :=
        if record.rateDefaulted then st1
        else { st1 with surfaceInjectionRate := st1.surfaceInjectionRate.update record.rateValue }
      let st3 : WellInjectionProperties :=
        if record.bhpHasValue then { st2 with BHPH := record.bhpSI } else st2
      let st4 : WellInjectionProperties :=
        if record.thpHasValue then { st3 with THPH := record.thpSI } else st3
      match WellInjectorCModeFromString record.cmodeString with
      | Except.error e => Except.error e
      | Except.ok inputControlMode =>
        let supported : Bool := inputControlMode = .RATE ∨ inputControlMode = .BHP
        let warnings : List String :=
          if supported then []
          else [wconinjhWarning filename lineno well_name inputControlMode
                 st4.surfaceInjectionRate.targetString]
        let newControlMode : InjectorCMode :=
          if supported then inputControlMode else InjectorCMode.RATE
        let st5 : WellInjectionProperties :=
          if newControlMode = .BHP then
            { st4 with bhp_hist_limit := st4.BHPH }
          else
            if st4.predictionMode ∨ st4.controlMode = .BHP ∨ is_producer then
              { st4 with bhp_hist_limit := bhp_def }
            else st4
        let st6 : WellInjectionProperties :=
          { st5 with injectionControls :=
              addInjectionControl (addInjectionControl st5.injectionControls .BHP) newControlMode }
        let st7 : WellInjectionProperties :=
          { st6 with controlMode := newControlMode, predictionMode := false,
                     VFPTableNumber := vfp_table_nr, rsRvInj := record.vapoilSI }
        let st8 : WellInjectionProperties :=
          if st7.injectorType = .OIL ∧ 0 < st7.rsRvInj then
            { st7 with rsRvInj := record.vapoilDeck / (record.vapoilSI / record.vapoilDeck) }
          else st7
        Except.ok (st8, warnings)

/-- The default-constructed WellInjectionProperties (the C++ default
constructor with a given well name): no targets assigned, empty control
set, WATER injector, undefined control mode. -/
def defaultInjectionProperties (wname : String) : WellInjectionProperties :=
  { name := wname
    surfaceInjectionRate := .undefinedValue
    reservoirInjectionRate := .undefinedValue
    BHPTarget := .undefinedValue
    THPTarget := .undefinedValue
    BHPH := 0
    THPH := 0
    bhp_hist_limit := 0
    thp_hist_limit := 0
    VFPTableNumber := 0
    predictionMode := true
    injectionControls := []
    injectorType := .WATER
    controlMode := .CMODE_UNDEFINED
    rsRvInj := 0 }

/-- The payload of an Except, with a default for the error case. -/
def exceptValue {ε α : Type} (e : Except ε α) (dflt : α) : α :=
  match e with
  | .ok a => a
  | .error _ => dflt

/- ============ Control-set lemmas ============ -/

theorem hasInjectionControl_add_self (l : List InjectorCMode) (c : InjectorCMode) :
    hasInjectionControl (addInjectionControl l c) c = true := by
  unfold addInjectionControl
  by_cases h : l.contains c
  · rw [if_pos h]; exact h
  · rw [if_neg h]
    simp [hasInjectionControl, List.contains, List.elem_eq_mem]

theorem hasInjectionControl_add_of (l : List InjectorCMode) (c d : InjectorCMode)
    (h : hasInjectionControl l c = true) :
    hasInjectionControl (addInjectionControl l d) c = true := by
  unfold addInjectionControl
  by_cases hd : l.contains d
  · rw [if_pos hd]; exact h
  · rw [if_neg hd]
    simp only [hasInjectionControl, List.contains, List.elem_eq_mem,
      decide_eq_true_eq] at h ⊢
    exact List.mem_cons_of_mem _ h

theorem hasInjectionControl_add_ne (l : List InjectorCMode) (c d : InjectorCMode)
    (h : c ≠ d) :
    hasInjectionControl (addInjectionControl l d) c = hasInjectionControl l c := by
  unfold addInjectionControl
  by_cases hd : l.contains d
  · rw [if_pos hd]
  · rw [if_neg hd]
    simp [hasInjectionControl, List.contains, List.elem_eq_mem, List.mem_cons, h]

theorem hasInjectionControl_drop_ne (l : List InjectorCMode) (c d : InjectorCMode)
    (h : c ≠ d) :
    hasInjectionControl (dropInjectionControl l d) c = hasInjectionControl l c := by
  simp [hasInjectionControl, dropInjectionControl, List.contains, List.elem_eq_mem,
    List.mem_filter, h]

/- ===================== Theorem: C9 ===================== -/

/-- Claim C9: whenever handleWCONINJE or handleWCONINJH returns normally, the BHP
injection control is in the active injection-control set and the selected
controlMode is itself one of the active controls. -/
theorem handleWCONINJ_bhp_and_mode_active :
    (∀ st0 record bhp_def afgc wname s1,
      handleWCONINJE st0 record bhp_def afgc wname = Except.ok s1 →
      hasInjectionControl s1.injectionControls .BHP = true ∧
      hasInjectionControl s1.injectionControls s1.controlMode = true) ∧
    (∀ st0 record vfp bhp_def isprod wname fname lineno s1 ws,
      handleWCONINJH st0 record vfp bhp_def isprod wname fname lineno =
        Except.ok (s1, ws) →
      hasInjectionControl s1.injectionControls .BHP = true ∧
      hasInjectionControl s1.injectionControls s1.controlMode = true) := by
  constructor
  · intro st0 record bhp_def afgc wname s1 h
    simp only [handleWCONINJE] at h
    repeat' split at h
    all_goals
      first
        | contradiction
        | (simp only [Except.ok.injEq] at h
           subst h
           refine ⟨?_, by assumption⟩
           simp [hasInjectionControl_add_self, hasInjectionControl_add_ne,
             hasInjectionControl_drop_ne, apply_ite WellInjectionProperties.injectionControls,
             ite_self])
  · intro st0 record vfp bhp_def isprod wname fname lineno s1 ws h
    simp only [handleWCONINJH] at h
    repeat' split at h
    all_goals
      first
        | contradiction
        | (simp only [Except.ok.injEq, Prod.mk.injEq] at h
           obtain ⟨h1, h2⟩ := h
           subst h1
           constructor <;>
             simp [hasInjectionControl_add_self, hasInjectionControl_add_of,
               apply_ite WellInjectionProperties.injectionControls,
               apply_ite WellInjectionProperties.controlMode, ite_self])

/-- The concrete WCONINJE record used in the C9 witness. -/
def c9InjeRecord : WconinjeRecord :=
  { typeString := "WATER"
    rateDefaulted := false
    rateValue := .num 100
    resvDefaulted := true
    resvValue := .undefinedValue
    vfpTableNumber := 0
    thpDefaulted := true
    thpValue := .undefinedValue
    bhpDefaulted := true
    bhpValue := .undefinedValue
    cmodeString := "RATE"
    vapoilSI := 0
    vapoilDeck := 0 }

/-- The concrete WCONINJH record used in the C9 witness. -/
def c9InjhRecord : WconinjhRecord :=
  { typeDefaulted := false
    typeString := "GAS"
    rateDefaulted := false
    rateValue := 200
    bhpHasValue := true
    bhpSI := 50
    thpHasValue := false
    thpSI := 0
    cmodeString := "BHP"
    vapoilSI := 0
    vapoilDeck := 0 }

/-- The state produced by the witness WCONINJE record. -/
def c9InjeResult : WellInjectionProperties :=
  exceptValue (handleWCONINJE (defaultInjectionProperties "INJ1") c9InjeRecord 6891 true "INJ1")
    (defaultInjectionProperties "X")

/-- The state and warnings produced by the witness WCONINJH record. -/
def c9InjhResult : WellInjectionProperties × List String :=
  exceptValue (handleWCONINJH (defaultInjectionProperties "INJ2") c9InjhRecord 3 6891 false
      "INJ2" "CASE.DATA" 11)
    (defaultInjectionProperties "X", [])

/- ===================== Theorems: C1 ===================== -/

/-- A water injection well with a UDA-driven surface rate, used to exhibit
the behaviour of the rate-control handlers on a fluid-type mismatch. -/
def waterInjectorState : WellInjectionProperties :=
  { defaultInjectionProperties "INJ1" with
      surfaceInjectionRate := .uda "FUINJ"
      injectionControls := [.BHP, .RATE]
      controlMode := .RATE
      injectorType := .WATER }

/-- Claim C1 counterexample: a UDA update of the oil surface rate target on a
water injector does not fail at all: update_uda returns normally, leaves
the state unchanged and registers nothing; and the WELTARG path fails with
a fixed message that does not mention the well name. -/
theorem fluid_mismatch_not_always_failing :
    update_uda waterInjectorState ⟨["FUINJ"]⟩ ⟨[]⟩ .WELTARG_ORAT (.uda "FUINJ") =
      Except.ok (waterInjectorState, ⟨[]⟩) ∧
    handleWELTARG waterInjectorState .ORAT (.uda "FUINJ") 1 =
      Except.error "Well type must be OIL to set the oil rate" := by
  constructor
  · rfl
  · rfl

/-- Claim C1 (amended): on a fluid-type mismatch, WELTARG and WTMULT rate updates
fail with a descriptive message naming the required injector type (but not
the well name), while a UDA update returns normally with the state and the
tracker unchanged. -/
theorem fluid_mismatch_behaviour :
    (∀ st v f, st.injectorType ≠ .OIL →
      handleWELTARG st .ORAT v f = Except.error "Well type must be OIL to set the oil rate") ∧
    (∀ st v f, st.injectorType ≠ .WATER →
      handleWELTARG st .WRAT v f = Except.error "Well type must be WATER to set the water rate") ∧
    (∀ st v f, st.injectorType ≠ .GAS →
      handleWELTARG st .GRAT v f = Except.error "Well type must be GAS to set the gas rate") ∧
    (∀ st f, st.injectorType ≠ .OIL →
      handleWTMULT st .ORAT f = Except.error "Well type must be OIL to scale the oil rate") ∧
    (∀ st f, st.injectorType ≠ .WATER →
      handleWTMULT st .WRAT f = Except.error "Well type must be WATER to scale the oil rate") ∧
    (∀ st f, st.injectorType ≠ .GAS →
      handleWTMULT st .GRAT f = Except.error "Well type must be GAS to scale the oil rate") ∧
    (∀ st cfg a v, st.injectorType ≠ .OIL →
      update_uda st cfg a .WELTARG_ORAT v = Except.ok (st, a)) ∧
    (∀ st cfg a v, st.injectorType ≠ .WATER →
      update_uda st cfg a .WELTARG_WRAT v = Except.ok (st, a)) ∧
    (∀ st cfg a v, st.injectorType ≠ .GAS →
      update_uda st cfg a .WELTARG_GRAT v = Except.ok (st, a)) := by
  refine ⟨?_, ?_, ?_, ?_, ?_, ?_, ?_, ?_, ?_⟩ <;>
    intro st <;> intros <;>
    first
      | (simp [handleWELTARG]; intro hc; simp_all)
      | (simp [handleWTMULT]; intro hc; simp_all)
      | (simp only [update_uda]; rw [if_neg (by assumption)]; rfl)

/-- Claim C1 witness: the amended behaviour at the concrete water injector. -/
theorem fluid_mismatch_behaviour_witness :
    handleWELTARG waterInjectorState .ORAT (.num 3) 1 =
      Except.error "Well type must be OIL to set the oil rate" ∧
    handleWTMULT waterInjectorState .ORAT 2 =
      Except.error "Well type must be OIL to scale the oil rate" ∧
    update_uda waterInjectorState ⟨[]⟩ ⟨[]⟩ .WELTARG_GRAT (.num 3) =
      Except.ok (waterInjectorState, ⟨[]⟩) :=
  ⟨fluid_mismatch_behaviour.1 waterInjectorState (.num 3) 1 (by decide),
   fluid_mismatch_behaviour.2.2.2.1 waterInjectorState 2 (by decide),
   fluid_mismatch_behaviour.2.2.2.2.2.2.2.2 waterInjectorState ⟨[]⟩ ⟨[]⟩ (.num 3) (by decide)⟩

/- ===================== Theorems: C2 ===================== -/

/-- A WCONINJH record selecting the unsupported THP history control. -/
def thpInjhRecord : WconinjhRecord :=
  { typeDefaulted := false
    typeString := "WATER"
    rateDefaulted := false
    rateValue := 100
    bhpHasValue := true
    bhpSI := 50
    thpHasValue := true
    thpSI := 30
    cmodeString := "THP"
    vapoilSI := 0
    vapoilDeck := 0 }

/-- The state and warnings handleWCONINJH produces on the THP record. -/
def thpInjhResult : WellInjectionProperties × List String :=
  exceptValue (handleWCONINJH (defaultInjectionProperties "INJ1") thpInjhRecord 0 5 false
      "INJ1" "CASE.DATA" 10)
    (defaultInjectionProperties "X", [])

/-- Claim C2 counterexample: a WCONINJH record selecting the unsupported THP
control mode does not fail: the handler returns normally with the control
mode substituted by RATE and one warning issued. -/
theorem wconinjh_unsupported_mode_not_fatal :
    handleWCONINJH (defaultInjectionProperties "INJ1") thpInjhRecord 0 5 false
        "INJ1" "CASE.DATA" 10 = Except.ok thpInjhResult ∧
    thpInjhResult.1.controlMode = .RATE ∧
    thpInjhResult.2.length = 1 := by
  refine ⟨rfl, rfl, rfl⟩

/-- Claim C2 (amended): a WCONINJH record whose control mode parses to something
other than RATE or BHP is not fatal: the handler returns normally, resets
the control mode to RATE and issues exactly one warning. -/
theorem wconinjh_unsupported_mode_resets_to_rate :
    ∀ st0 record vfp bhp_def isprod wname fname lineno ty cm,
      record.typeDefaulted = false →
      InjectorTypeFromString record.typeString = Except.ok ty →
      WellInjectorCModeFromString record.cmodeString = Except.ok cm →
      cm ≠ .RATE → cm ≠ .BHP →
      ∃ s1 w, handleWCONINJH st0 record vfp bhp_def isprod wname fname lineno =
          Except.ok (s1, [w]) ∧ s1.controlMode = .RATE := by
  intro st0 record vfp bhp_def isprod wname fname lineno ty cm hdef hty hcm h1 h2
  have hsup : (cm = InjectorCMode.RATE ∨ cm = InjectorCMode.BHP) = False := by
    simp [h1, h2]
  simp only [handleWCONINJH, hdef, hty, hcm, hsup, decide_False,
    Bool.false_eq_true, if_false]
  refine ⟨_, _, rfl, ?_⟩
  simp only [apply_ite WellInjectionProperties.controlMode, ite_self]

/-- Claim C2 witness: the amended behaviour at a concrete GRUP-control record. -/
theorem wconinjh_unsupported_mode_resets_to_rate_witness :
    ∃ s1 w, handleWCONINJH (defaultInjectionProperties "I2")
        { thpInjhRecord with cmodeString := "GRUP" } 0 5 false "I2" "CASE.DATA" 12 =
        Except.ok (s1, [w]) ∧ s1.controlMode = .RATE :=
  wconinjh_unsupported_mode_resets_to_rate (defaultInjectionProperties "I2")
    { thpInjhRecord with cmodeString := "GRUP" } 0 5 false "I2" "CASE.DATA" 12
    .WATER .GRUP rfl rfl rfl (by decide) (by decide)

/-- Claim C9 witness: the invariant holds on two concrete successful records. -/
theorem handleWCONINJ_bhp_and_mode_active_witness :
    (hasInjectionControl c9InjeResult.injectionControls .BHP = true ∧
     hasInjectionControl c9InjeResult.injectionControls c9InjeResult.controlMode = true) ∧
    (hasInjectionControl c9InjhResult.1.injectionControls .BHP = true ∧
     hasInjectionControl c9InjhResult.1.injectionControls c9InjhResult.1.controlMode = true) :=
  ⟨handleWCONINJ_bhp_and_mode_active.1 (defaultInjectionProperties "INJ1") c9InjeRecord
      6891 true "INJ1" c9InjeResult (by rfl),
   handleWCONINJ_bhp_and_mode_active.2 (defaultInjectionProperties "INJ2") c9InjhRecord
      3 6891 false "INJ2" "CASE.DATA" 11 c9InjhResult.1 c9InjhResult.2 (by rfl)⟩

/- ===================== Tracker lemmas and C3 ===================== -/

theorem lookupRec_setRec_self (l : List ((String × UDAControl) × String))
    (key : String × UDAControl) (v : String) :
    lookupRec (setRec l key v) key = some v := by
  induction l with
  | nil => simp [setRec, lookupRec]
  | cons e rest ih =>
    obtain ⟨k, w⟩ := e
    simp only [setRec]
    by_cases hk : k = key
    · rw [if_pos hk]
      simp [lookupRec]
    · rw [if_neg hk]
      simp only [lookupRec]
      rw [if_neg hk]
      exact ih

theorem lookupRec_setRec_ne (l : List ((String × UDAControl) × String))
    (key key2 : String × UDAControl) (v : String) (h : key2 ≠ key) :
    lookupRec (setRec l key v) key2 = lookupRec l key2 := by
  induction l with
  | nil =>
    simp only [setRec, lookupRec]
    rw [if_neg (Ne.symm h)]
  | cons e rest ih =>
    obtain ⟨k, w⟩ := e
    simp only [setRec]
    by_cases hk : k = key
    · rw [if_pos hk]
      simp only [lookupRec]
      have hk2 : ¬k = key2 := fun hq => h (hq ▸ hk ▸ rfl)
      rw [if_neg (Ne.symm h), if_neg hk2]
    · rw [if_neg hk]
      simp only [lookupRec]
      by_cases hk2 : k = key2
      · rw [if_pos hk2, if_pos hk2]
      · rw [if_neg hk2, if_neg hk2]
        exact ih

theorem lookupRec_removeRec_self (l : List ((String × UDAControl) × String))
    (key : String × UDAControl) :
    lookupRec (removeRec l key) key = none := by
  induction l with
  | nil => simp [removeRec, lookupRec]
  | cons e rest ih =>
    obtain ⟨k, w⟩ := e
    simp only [removeRec, List.filter_cons] at ih ⊢
    by_cases hk : k = key
    · rw [show (decide ¬((k, w).1 = key)) = false by simp [hk]]
      exact ih
    · rw [show (decide ¬((k, w).1 = key)) = true by simp [hk]]
      simp only [lookupRec]
      rw [if_neg hk]
      exact ih

theorem lookupRec_removeRec_ne (l : List ((String × UDAControl) × String))
    (key key2 : String × UDAControl) (h : key2 ≠ key) :
    lookupRec (removeRec l key) key2 = lookupRec l key2 := by
  induction l with
  | nil => simp [removeRec, lookupRec]
  | cons e rest ih =>
    obtain ⟨k, w⟩ := e
    simp only [removeRec, List.filter_cons] at ih ⊢
    by_cases hk : k = key
    · rw [show (decide ¬((k, w).1 = key)) = false by simp [hk]]
      simp only [lookupRec]
      have hk2 : ¬k = key2 := fun hq => h (hq ▸ hk ▸ rfl)
      rw [if_neg hk2]
      exact ih
    · rw [show (decide ¬((k, w).1 = key)) = true by simp [hk]]
      simp only [lookupRec]
      by_cases hk2 : k = key2
      · rw [if_pos hk2, if_pos hk2]
      · rw [if_neg hk2, if_neg hk2]
        exact ih

/-- After an update, the updated slot tracks exactly what the value asks. -/
theorem update_lookup_self (a : UDQActive) (cfg : UDQConfig) (v : UDAValue)
    (n : String) (c : UDAControl) :
    lookupRec ((a.update cfg v n c).2).records (n, c) = desiredTracking v := by
  unfold UDQActive.update
  split
  · next k heq =>
    by_cases hl : lookupRec a.records (n, c) = some k
    · rw [if_pos hl, heq]
      exact hl
    · rw [if_neg hl, heq]
      exact lookupRec_setRec_self _ _ _
  · next heq =>
    split
    · next hl =>
      rw [heq]
      exact hl
    · next w hl =>
      rw [heq]
      exact lookupRec_removeRec_self _ _

/-- An update leaves every other slot unchanged. -/
theorem update_lookup_ne (a : UDQActive) (cfg : UDQConfig) (v : UDAValue)
    (n n2 : String) (c c2 : UDAControl) (h : (n2, c2) ≠ (n, c)) :
    lookupRec ((a.update cfg v n c).2).records (n2, c2) =
      lookupRec a.records (n2, c2) := by
  unfold UDQActive.update
  split
  · next k heq =>
    by_cases hl : lookupRec a.records (n, c) = some k
    · rw [if_pos hl]
    · rw [if_neg hl]
      exact lookupRec_setRec_ne _ _ _ _ h
  · next heq =>
    split
    · next hl => rfl
    · next w hl =>
      exact lookupRec_removeRec_ne _ _ _ h

/-- An update whose slot already tracks the asked state is a no-op with
count 0. -/
theorem update_stable (a : UDQActive) (cfg : UDQConfig) (v : UDAValue)
    (n : String) (c : UDAControl)
    (h : lookupRec a.records (n, c) = desiredTracking v) :
    a.update cfg v n c = (0, a) := by
  unfold UDQActive.update
  split
  · next k heq =>
    rw [heq] at h
    rw [if_pos h]
  · next heq =>
    rw [heq] at h
    rw [h]

/-- The count returned by update is 0 or 1, and it is 0 exactly when the
tracked state did not change. -/
theorem update_count_characterizes (a : UDQActive) (cfg : UDQConfig) (v : UDAValue)
    (n : String) (c : UDAControl) :
    ((a.update cfg v n c).1 = 0 ∨ (a.update cfg v n c).1 = 1) ∧
    ((a.update cfg v n c).1 = 0 ↔ (a.update cfg v n c).2 = a) := by
  unfold UDQActive.update
  split
  · next k heq =>
    by_cases hl : lookupRec a.records (n, c) = some k
    · rw [if_pos hl]
      simp
    · rw [if_neg hl]
      have hne : (⟨setRec a.records (n, c) k⟩ : UDQActive) ≠ a := by
        intro he
        have hr := congrArg UDQActive.records he
        simp only [] at hr
        rw [← hr] at hl
        exact hl (lookupRec_setRec_self _ _ _)
      simp [hne]
  · next heq =>
    split
    · next hl => simp
    · next w hl =>
      have hne : (⟨removeRec a.records (n, c)⟩ : UDQActive) ≠ a := by
        intro he
        have hr := congrArg UDQActive.records he
        simp only [] at hr
        rw [← hr] at hl
        rw [lookupRec_removeRec_self] at hl
        exact Option.noConfusion hl
      simp [hne]

/-- A second identical pass over the four WCONINJE targets changes
nothing. -/
theorem updateUDQActive_repeat_false (st : WellInjectionProperties)
    (cfg : UDQConfig) (a : UDQActive) :
    (updateUDQActive st cfg ((updateUDQActive st cfg a).2)).1 = false := by
  have hprod : ∀ (c1 c2 : UDAControl), c1 ≠ c2 → (st.name, c1) ≠ (st.name, c2) := by
    intro c1 c2 hne he
    exact hne (congrArg Prod.snd he)
  have hRATE : lookupRec ((updateUDQActive st cfg a).2).records (st.name, .WCONINJE_RATE) =
      desiredTracking st.surfaceInjectionRate := by
    unfold updateUDQActive
    simp only []
    rw [update_lookup_ne _ _ _ _ _ _ _ (hprod _ _ (by decide)),
        update_lookup_ne _ _ _ _ _ _ _ (hprod _ _ (by decide)),
        update_lookup_ne _ _ _ _ _ _ _ (hprod _ _ (by decide)),
        update_lookup_self]
  have hRESV : lookupRec ((updateUDQActive st cfg a).2).records (st.name, .WCONINJE_RESV) =
      desiredTracking st.reservoirInjectionRate := by
    unfold updateUDQActive
    simp only []
    rw [update_lookup_ne _ _ _ _ _ _ _ (hprod _ _ (by decide)),
        update_lookup_ne _ _ _ _ _ _ _ (hprod _ _ (by decide)),
        update_lookup_self]
  have hBHP : lookupRec ((updateUDQActive st cfg a).2).records (st.name, .WCONINJE_BHP) =
      desiredTracking st.BHPTarget := by
    unfold updateUDQActive
    simp only []
    rw [update_lookup_ne _ _ _ _ _ _ _ (hprod _ _ (by decide)),
        update_lookup_self]
  have hTHP : lookupRec ((updateUDQActive st cfg a).2).records (st.name, .WCONINJE_THP) =
      desiredTracking st.THPTarget := by
    unfold updateUDQActive
    simp only []
    rw [update_lookup_self]
  have e1 := update_stable _ cfg st.surfaceInjectionRate st.name .WCONINJE_RATE hRATE
  have e2 := update_stable _ cfg st.reservoirInjectionRate st.name .WCONINJE_RESV hRESV
  have e3 := update_stable _ cfg st.BHPTarget st.name .WCONINJE_BHP hBHP
  have e4 := update_stable _ cfg st.THPTarget st.name .WCONINJE_THP hTHP
  conv_lhs => rw [updateUDQActive]
  simp only [e1, e2, e3, e4]
  rfl

/-- A second identical pass of the WELTARG overload changes nothing. -/
theorem updateUDQActiveWeltarg_repeat_false (st : WellInjectionProperties)
    (cfg : UDQConfig) (cm : WELTARGCMode) (a : UDQActive) :
    (updateUDQActiveWeltarg st cfg cm ((updateUDQActiveWeltarg st cfg cm a).2)).1 = false := by
  cases cm
  case ORAT =>
    by_cases ht : st.injectorType = .OIL
    · simp only [updateUDQActiveWeltarg, if_pos ht]
      rw [update_stable _ _ _ _ _ (update_lookup_self _ _ _ _ _)]
      rfl
    · simp only [updateUDQActiveWeltarg, if_neg ht]
  case WRAT =>
    by_cases ht : st.injectorType = .WATER
    · simp only [updateUDQActiveWeltarg, if_pos ht]
      rw [update_stable _ _ _ _ _ (update_lookup_self _ _ _ _ _)]
      rfl
    · simp only [updateUDQActiveWeltarg, if_neg ht]
  case GRAT =>
    by_cases ht : st.injectorType = .GAS
    · simp only [updateUDQActiveWeltarg, if_pos ht]
      rw [update_stable _ _ _ _ _ (update_lookup_self _ _ _ _ _)]
      rfl
    · simp only [updateUDQActiveWeltarg, if_neg ht]
  case RESV =>
    simp only [updateUDQActiveWeltarg,
      update_stable _ cfg st.reservoirInjectionRate st.name .WELTARG_RESV
        (update_lookup_self a cfg st.reservoirInjectionRate st.name .WELTARG_RESV)]
    rfl
  case BHP =>
    simp only [updateUDQActiveWeltarg,
      update_stable _ cfg st.BHPTarget st.name .WELTARG_BHP
        (update_lookup_self a cfg st.BHPTarget st.name .WELTARG_BHP)]
    rfl
  case THP =>
    simp only [updateUDQActiveWeltarg,
      update_stable _ cfg st.THPTarget st.name .WELTARG_THP
        (update_lookup_self a cfg st.THPTarget st.name .WELTARG_THP)]
    rfl
  all_goals rfl

/-- Claim C3: the Active-UDA tracker update is idempotent -- it returns 1 exactly
when the registration changed tracked state and 0 otherwise, repeating an
update with identical arguments returns 0, and a second identical call to
WellInjectionProperties::updateUDQActive (either overload) returns false. -/
theorem udqActive_update_idempotent :
    (∀ a cfg v n c,
      ((UDQActive.update a cfg v n c).1 = 0 ∨ (UDQActive.update a cfg v n c).1 = 1) ∧
      ((UDQActive.update a cfg v n c).1 = 0 ↔ (UDQActive.update a cfg v n c).2 = a)) ∧
    (∀ a cfg v n c,
      UDQActive.update (UDQActive.update a cfg v n c).2 cfg v n c =
        (0, (UDQActive.update a cfg v n c).2)) ∧
    (∀ st cfg a, (updateUDQActive st cfg ((updateUDQActive st cfg a).2)).1 = false) ∧
    (∀ st cfg cm a,
      (updateUDQActiveWeltarg st cfg cm
        ((updateUDQActiveWeltarg st cfg cm a).2)).1 = false) :=
  ⟨update_count_characterizes,
   fun a cfg v n c => update_stable _ cfg v n c (update_lookup_self a cfg v n c),
   updateUDQActive_repeat_false,
   updateUDQActiveWeltarg_repeat_false⟩

/- ===================== UDQ value sets (C5, C6) ===================== -/

/-- Entity kinds of UDQ sets (UDQEnums.hpp, UDQVarType). -/
inductive UDQVarType
  | NONE
  | SCALAR
  | WELL_VAR
  | GROUP_VAR
  | FIELD_VAR
  | REGION_VAR
  | SEGMENT_VAR
  deriving DecidableEq, Repr

/-- Modelled from the spec: a UDQ value Set is a mapping from entity name
to an optional (defined) value, tagged with an entity kind (UDQSet.cpp is
not part of the excerpt). The value type is a parameter: Rat embeds the
doubles of the arithmetic claims, Real is used where LOG is involved. -/
structure UDQSet (α : Type) where
  var_type : UDQVarType
  entries : List (String × Option α)

/-- All entries of the set are defined. -/
def UDQSet.allDefined {α : Type} (s : UDQSet α) : Bool :=
  s.entries.all (fun e => e.2.isSome)

/-- The entity names of the set, in order. -/
def UDQSet.entityNames {α : Type} (s : UDQSet α) : List String :=
  s.entries.map Prod.fst

/-- Modelled from the spec: plain + poisons the result entry when either
operand entry is undefined. -/
def plusCombine {α : Type} [Add α] : Option α → Option α → Option α
  | some x, some y => some (x + y)
  | _, _ => none

/-- Modelled from the spec: UADD ignores an undefined operand and passes
the defined one through; only two undefined operands stay undefined. -/
def uaddCombine {α : Type} [Add α] : Option α → Option α → Option α
  | some x, some y => some (x + y)
  | some x, none => some x
  | none, some y => some y
  | none, none => none

/-- Modelled from the spec: elementwise combination of two sets sharing
the same entity list; a shape mismatch is an evaluation failure. -/
def udq_binary {α : Type} (f : Option α → Option α → Option α)
    (a b : UDQSet α) : Except String (UDQSet α) :=
  if a.entityNames = b.entityNames then
    .ok ⟨a.var_type, List.zipWith (fun x y => (x.1, f x.2 y.2)) a.entries b.entries⟩
  else
    .error "Incompatible UDQ set shapes"

/-- The + operator on sets. -/
def udq_add {α : Type} [Add α] (a b : UDQSet α) : Except String (UDQSet α) :=
  udq_binary plusCombine a b

/-- The UADD operator on sets. -/
def udq_uadd {α : Type} [Add α] (a b : UDQSet α) : Except String (UDQSet α) :=
  udq_binary uaddCombine a b

theorem zipWith_uadd_eq_add {α : Type} [Add α] :
    ∀ (l1 l2 : List (String × Option α)),
      l1.all (fun e => e.2.isSome) = true →
      l2.all (fun e => e.2.isSome) = true →
      List.zipWith (fun x y => (x.1, uaddCombine x.2 y.2)) l1 l2 =
        List.zipWith (fun x y => (x.1, plusCombine x.2 y.2)) l1 l2 := by
  intro l1
  induction l1 with
  | nil => intro l2 _ _; rfl
  | cons e1 rest1 ih =>
    intro l2 h1 h2
    cases l2 with
    | nil => rfl
    | cons e2 rest2 =>
      simp only [List.all_cons, Bool.and_eq_true] at h1 h2
      obtain ⟨hv1, hr1⟩ := h1
      obtain ⟨hv2, hr2⟩ := h2
      obtain ⟨x, hx⟩ := Option.isSome_iff_exists.mp hv1
      obtain ⟨y, hy⟩ := Option.isSome_iff_exists.mp hv2
      simp only [List.zipWith]
      rw [hx, hy]
      rw [ih rest2 hr1 hr2]
      rfl

/-- Claim C6: for every pair of fully defined value Sets, A UADD B equals
A + B. -/
theorem uadd_eq_add_on_defined (a b : UDQSet ℚ)
    (ha : a.allDefined = true) (hb : b.allDefined = true) :
    udq_uadd a b = udq_add a b := by
  unfold udq_uadd udq_add udq_binary
  by_cases hshape : a.entityNames = b.entityNames
  · rw [if_pos hshape, if_pos hshape]
    rw [zipWith_uadd_eq_add a.entries b.entries ha hb]
  · rw [if_neg hshape, if_neg hshape]

/-- A fully defined two-well set. -/
def sampleSetA : UDQSet ℚ :=
  ⟨.WELL_VAR, [("PROD1", some 1), ("PROD2", some 2)]⟩

/-- Another fully defined two-well set over the same wells. -/
def sampleSetB : UDQSet ℚ :=
  ⟨.WELL_VAR, [("PROD1", some 10), ("PROD2", some 20)]⟩

/-- Claim C6 witness: UADD agrees with + on two concrete fully defined sets. -/
theorem uadd_eq_add_on_defined_witness :
    udq_uadd sampleSetA sampleSetB = udq_add sampleSetA sampleSetB :=
  uadd_eq_add_on_defined sampleSetA sampleSetB (by decide) (by decide)

/-- Modelled from the spec: the elementwise LOG function of the UDQ
evaluator. Evaluating LOG on a set with any defined non-positive entry
fails with a domain error instead of silently producing NaN or -inf;
otherwise the natural logarithm is applied to every defined entry. -/
noncomputable def udq_log (s : UDQSet ℝ) : Except String (UDQSet ℝ) :=
  if s.entries.any (fun e =>
      match e.2 with
      | some v => decide (v ≤ 0)
      | none => false) then
    .error "DOMAIN ERROR: argument to LOG must be positive"
  else
    .ok ⟨s.var_type, s.entries.map (fun e => (e.1, e.2.map Real.log))⟩

/-- Claim C5: evaluating LOG on any set holding a defined entry x with x <= 0
fails with the domain error. -/
theorem udq_log_nonpositive_domain_error (s : UDQSet ℝ) (n : String) (v : ℝ)
    (hmem : (n, some v) ∈ s.entries) (hv : v ≤ 0) :
    udq_log s = .error "DOMAIN ERROR: argument to LOG must be positive" := by
  unfold udq_log
  rw [if_pos]
  rw [List.any_eq_true]
  exact ⟨(n, some v), hmem, by simp [hv]⟩

/-- A field-level set holding the non-positive value -1. -/
noncomputable def nonpositiveSet : UDQSet ℝ :=
  ⟨.FIELD_VAR, [("FIELD", some (-1))]⟩

/-- Claim C5 witness: LOG of the concrete set holding -1 is the domain error. -/
theorem udq_log_nonpositive_domain_error_witness :
    udq_log nonpositiveSet = .error "DOMAIN ERROR: argument to LOG must be positive" :=
  udq_log_nonpositive_domain_error nonpositiveSet "FIELD" (-1)
    (by simp [nonpositiveSet]) (by norm_num)

/- ===================== UDQ DEFINE configuration (C7) ===================== -/

/-- Binary operators of the mini expression grammar exercised by the
last-definition-wins fixture. -/
inductive UDQBinOp
  | addOp
  | subOp
  | mulOp
  deriving DecidableEq, Repr

/-- Modelled from the spec: the UDQ expression AST restricted to the
constructs of the WUOPRL fixture -- number literals, well-level summary
vector references with a selector, and binary arithmetic. -/
inductive UDQExpr
  | const (v : ℚ)
  | wellRef (kw : String) (well : String)
  | bin (op : UDQBinOp) (l r : UDQExpr)
  deriving DecidableEq, Repr

/-- Modelled from the spec: the evaluation Context restricted to scalar
per-well summary vector values. -/
abbrev SummaryContext := List ((String × String) × ℚ)

/-- Context lookup of one summary vector value for one well. -/
def ctxLookup : SummaryContext → String → String → Option ℚ
  | [], _, _ => none
  | (k, v) :: rest, kw, well => if k = (kw, well) then some v else ctxLookup rest kw well

/-- Modelled from the spec: evaluation of the mini AST for one entity;
an unknown reference is undefined, undefinedness propagates. -/
def evalUDQExpr (ctx : SummaryContext) : UDQExpr → Option ℚ
  | .const v => some v
  | .wellRef kw well => ctxLookup ctx kw well
  | .bin op l r =>
    match evalUDQExpr ctx l, evalUDQExpr ctx r with
    | some x, some y =>
      some (match op with
            | .addOp => x + y
            | .subOp => x - y
            | .mulOp => x * y)
    | _, _ => none

/-- Modelled from the spec: the ordered UDQ configuration; a later DEFINE
for the same name replaces the earlier one in place (declaration order
preserved), otherwise the record is appended. -/
def add_record : List (String × UDQExpr) → String → UDQExpr → List (String × UDQExpr)
  | [], n, e => [(n, e)]
  | (m, f) :: rest, n, e =>
    if m = n then (n, e) :: rest else (m, f) :: add_record rest n e

/-- Lookup of the active definition bound to a UDQ name. -/
def lookup_def : List (String × UDQExpr) → String → Option UDQExpr
  | [], _ => none
  | (m, f) :: rest, n => if m = n then some f else lookup_def rest n

/-- The first fixture definition: (WOPR PROD1 - 150) * 0.90. -/
def wuoprlFirst : UDQExpr :=
  .bin .mulOp (.bin .subOp (.wellRef "WOPR" "PROD1") (.const 150)) (.const (9/10))

/-- The redefinition: (WOPR PROD1 - 170) * 0.60. -/
def wuoprlSecond : UDQExpr :=
  .bin .mulOp (.bin .subOp (.wellRef "WOPR" "PROD1") (.const 170)) (.const (3/5))

/-- The fixture configuration: WUOPRL defined, two unrelated quantities
defined, then WUOPRL redefined. -/
def fixtureConfig : List (String × UDQExpr) :=
  add_record
    (add_record
      (add_record
        (add_record [] "WUOPRL" wuoprlFirst)
        "WULPRL" (.bin .mulOp (.bin .subOp (.wellRef "WLPR" "PROD1") (.const 200)) (.const (9/10))))
      "WUOPRU" (.bin .mulOp (.bin .subOp (.wellRef "WOPR" "PROD2") (.const 250)) (.const (4/5))))
    "WUOPRL" wuoprlSecond

/-- The fixture context: WOPR(PROD1) = 300. -/
def fixtureContext : SummaryContext := [(("WOPR", "PROD1"), 300)]

/-- Claim C7: a second DEFINE of the same name fully replaces the first in the
configuration, and on the fixture the redefined WUOPRL evaluates to 78 for
PROD1 (the replaced first definition would have evaluated to 135). -/
theorem define_last_definition_wins :
    (∀ cfg n e, lookup_def (add_record cfg n e) n = some e) ∧
    lookup_def fixtureConfig "WUOPRL" = some wuoprlSecond ∧
    evalUDQExpr fixtureContext wuoprlSecond = some 78 ∧
    evalUDQExpr fixtureContext wuoprlFirst = some 135 := by
  refine ⟨?_, by rfl,
    by norm_num [evalUDQExpr, fixtureContext, ctxLookup, wuoprlSecond],
    by norm_num [evalUDQExpr, fixtureContext, ctxLookup, wuoprlFirst]⟩
  intro cfg n e
  induction cfg with
  | nil => simp [add_record, lookup_def]
  | cons p rest ih =>
    obtain ⟨m, f⟩ := p
    by_cases hm : m = n
    · simp [add_record, hm, lookup_def]
    · simp only [add_record]
      rw [if_neg hm]
      simp only [lookup_def]
      rw [if_neg hm]
      exact ih

end OpmVerify
